import Mathlib

/-!
Shallow embedding of the core of the tbank-deepseek-ai-executor-bot repository:
multi-account portfolio aggregation (`app/telegram_bot.py`), commission-aware
trade costing (`app/telegram_bot.py`, `app/tariff_manager.py`), the AI provider
router (`app/ai_manager.py`) and the strategy synthesis pipeline
(`app/ai_manager.py`).

Modelling conventions:
* Python decimals/floats are modelled exactly as rationals (ℚ); the properties
  under verification are about exact sums, maxima and comparisons.
* Python `str.lower()` is modelled for the two alphabets the source uses
  (ASCII and the basic Cyrillic block).
* Fallible Python code (`try`/`except` returning `None`) is modelled with
  `Option`; a `none` result stands for the swallowed exception.
-/

namespace TBankBot

/-- Lowercase one character: ASCII letters via `Char.toLower`, plus the basic
Cyrillic range А..Я and Ё, matching Python `str.lower()` on the alphabets used
by the source. -/
def lowerChar (c : Char) : Char :=
  if 0x410 ≤ c.toNat ∧ c.toNat ≤ 0x42F then Char.ofNat (c.toNat + 0x20)
  else if c.toNat = 0x401 then Char.ofNat 0x451
  else c.toLower

/-- Python `s.lower()` over the modelled alphabets. -/
def lowerStr (s : String) : String := ⟨s.data.map lowerChar⟩

/-- Python `s.upper()` (ASCII only; the action strings it is applied to are
ASCII). -/
def upperStr (s : String) : String := ⟨s.data.map Char.toUpper⟩

/-- `listContains needle hay`: Python substring containment
`needle in hay` over character lists. -/
def listContains (needle : List Char) : List Char → Bool
  | [] => needle.isEmpty
  | c :: rest => needle.isPrefixOf (c :: rest) || listContains needle rest

/-- Python `needle in hay` for strings. -/
def strContains (hay needle : String) : Bool := listContains needle.data hay.data

/-- The `error_indicators` list of `AIManager._is_error_response`
(`app/ai_manager.py` lines 394-398), verbatim. -/
def errorIndicators : List String :=
  ["недоступен", "ошибка", "error", "❌", "ключ",
   "средств", "лимит", "invalid", "authentication",
   "ssl", "certificate", "таймаут", "timeout", "connection"]

/-- `AIManager._is_error_response` (`app/ai_manager.py` lines 389-401).
The `not isinstance(response, str)` branch cannot arise in the typed
embedding; `not response` on a string is the emptiness test. -/
def isErrorResponse (response : String) : Bool :=
  if response = "" then true
  else errorIndicators.any (fun ind => strContains (lowerStr response) ind)

/-! ## Commission policy (`app/tariff_manager.py`) -/

/-- One entry of the `commission_rates` table of
`TariffManager._get_commission_rates`. -/
structure CommissionRates where
  buy : ℚ
  sell : ℚ
  min_commission : ℚ
  description : String
deriving DecidableEq

/-- The static tier table of `TariffManager._get_commission_rates`
(`app/tariff_manager.py` lines 93-120): `.get(tariff_type, standard)`. -/
def commissionRatesFor (tariffType : String) : CommissionRates :=
  if tariffType = "investor" then
    ⟨3/10, 3/10, 0, "Комиссия за сделку от 0.3%. Обслуживание бесплатно"⟩
  else if tariffType = "trader" then
    ⟨1/25, 1/25, 0, "Комиссия от 0.04%. Обслуживание до 390 руб. в месяц"⟩
  else if tariffType = "premium" then
    ⟨1/40, 1/40, 0, "Премиальные условия"⟩
  else
    ⟨1/20, 1/20, 1, "Стандартные условия"⟩

/-- `TariffManager._get_monthly_fee` (`app/tariff_manager.py` lines 122-130). -/
def monthlyFeeFor (tariffType : String) : ℚ :=
  if tariffType = "investor" then 0
  else if tariffType = "trader" then 390
  else if tariffType = "premium" then 0
  else 0

/-- `TariffManager._get_tariff_features` (`app/tariff_manager.py`
lines 132-156), `.get(tariff_type, standard)`. -/
def featuresFor (tariffType : String) : List String :=
  if tariffType = "investor" then
    ["Комиссия за сделку от 0.3%", "Обслуживание бесплатно",
     "Подходит для долгосрочных инвестиций"]
  else if tariffType = "trader" then
    ["Комиссия от 0.04% за сделку", "Обслуживание до 390 руб. в месяц",
     "Подходит для активной торговли", "Льготные условия для частых операций"]
  else if tariffType = "premium" then
    ["Премиальные условия", "Персональный менеджер", "Минимальные комиссии"]
  else
    ["Стандартные условия", "Комиссия 0.05% за сделку", "Бесплатное обслуживание"]

/-- The `user_info.tariff` attribute when present: `getattr(·, 'name', ...)`
and `getattr(·, 'type', ...)` model missing sub-attributes with `Option`. -/
structure TariffAttr where
  name : Option String
  type_ : Option String

/-- The `user_info` object as `_analyze_tariff` inspects it:
`premium_status` and `tariff` attributes may be absent (`none`). -/
structure UserInfo where
  premium_status : Option Bool
  tariff : Option TariffAttr

/-- The accounts response as `_detect_tariff_by_accounts` inspects it:
`none` models a falsy response or one without an `accounts` attribute;
each account contributes `str(acc.type)` when the attribute exists. -/
def AccountsMeta : Type := Option (List (Option String))

/-- `TariffManager._detect_tariff_by_accounts` (`app/tariff_manager.py`
lines 73-88), returning `(tariff_name, tariff_type)`. -/
def detectTariffByAccounts (accountsResponse : AccountsMeta) : String × String :=
  match accountsResponse with
  | none => ("Стандартный", "standard")
  | some accounts =>
    let has_iiis := accounts.any fun t =>
      match t with | some s => strContains (lowerStr s) "iiis" | none => false
    let has_brokerage := accounts.any fun t =>
      match t with | some s => strContains (lowerStr s) "brokerage" | none => false
    if has_iiis ∧ has_brokerage then ("Инвестор", "investor")
    else if accounts.length > 2 then ("Трейдер", "trader")
    else ("Стандартный", "standard")

/-- The `(tariff_name, tariff_type)` selection of `TariffManager._analyze_tariff`
(`app/tariff_manager.py` lines 47-60): premium flag, else explicit tariff
attribute, else account-based detection. -/
def analyzedTariffType (u : UserInfo) (a : AccountsMeta) : String × String :=
  match u.premium_status with
  | some true => ("Премиум", "premium")
  | _ =>
    match u.tariff with
    | some t => (t.name.getD "Стандартный", t.type_.getD "standard")
    | none => detectTariffByAccounts a

/-- Resolved tariff information, the dict built by `_analyze_tariff`. -/
structure TariffInfo where
  name : String
  type_ : String
  commission_rates : CommissionRates
  monthly_fee : ℚ
  features : List String
deriving DecidableEq

/-- `TariffManager._analyze_tariff` (`app/tariff_manager.py` lines 47-72). -/
def analyzeTariff (u : UserInfo) (a : AccountsMeta) : TariffInfo :=
  let nt := analyzedTariffType u a
  { name := nt.1, type_ := nt.2,
    commission_rates := commissionRatesFor nt.2,
    monthly_fee := monthlyFeeFor nt.2,
    features := featuresFor nt.2 }

/-- `TariffManager._get_default_tariff` (`app/tariff_manager.py`
lines 158-166). -/
def defaultTariff : TariffInfo :=
  { name := "Стандартный", type_ := "standard",
    commission_rates := commissionRatesFor "standard",
    monthly_fee := 0, features := featuresFor "standard" }

/-- `TariffManager.get_tariff_info` (`app/tariff_manager.py` lines 18-45).
The input captures the outcome of the two brokerage calls plus analysis:
`.error` models any exception inside the `try` block, in which case the
standard default is returned; memoization is a per-session cache and does not
change the returned value. -/
def getTariffInfo (detection : Except Unit (UserInfo × AccountsMeta)) : TariffInfo :=
  match detection with
  | .error _ => defaultTariff
  | .ok (u, a) => analyzeTariff u a

/-- `TariffManager.get_commission_rate` (`app/tariff_manager.py` lines 168-171):
`commission_rates.get(operation_type.lower(), 0.05)`. The `description` key
holds a string and is not reachable as a numeric rate; the numeric keys are
modelled. -/
def getCommissionRate (r : CommissionRates) (operationType : String) : ℚ :=
  if lowerStr operationType = "buy" then r.buy
  else if lowerStr operationType = "sell" then r.sell
  else if lowerStr operationType = "min_commission" then r.min_commission
  else 1/20

/-- `TariffManager.get_min_commission` (`app/tariff_manager.py` lines 173-176):
`commission_rates.get('min_commission', 1.0)`; the key is present in every
tier entry. -/
def getMinCommission (r : CommissionRates) : ℚ := r.min_commission

/-! ## Trade costing (`app/telegram_bot.py`) -/

/-- `TradingBot._calculate_commission` (`app/telegram_bot.py` lines 762-772),
parameterised by the resolved tariff's commission-rate entry. -/
def calcCommission (r : CommissionRates) (actionType : String) (quantity price : ℚ) : ℚ :=
  let commission_rate := getCommissionRate r (lowerStr actionType)
  let min_commission := getMinCommission r
  let trade_amount := quantity * price
  let commission := trade_amount * (commission_rate / 100)
  max commission min_commission

/-- The dict returned by `TradingBot._calculate_total_cost`. -/
structure CostBreakdown where
  base_cost : ℚ
  commission : ℚ
  total_cost : ℚ
  net_cost : ℚ
  commission_percent : ℚ
deriving DecidableEq

/-- `TradingBot._calculate_total_cost` (`app/telegram_bot.py` lines 774-799). -/
def calcTotalCost (r : CommissionRates) (actionType : String) (quantity price : ℚ) :
    CostBreakdown :=
  let base_cost := quantity * price
  let commission := calcCommission r actionType quantity price
  let total_cost := if upperStr actionType = "BUY" then base_cost + commission
                    else base_cost - commission
  { base_cost := base_cost, commission := commission, total_cost := total_cost,
    net_cost := base_cost,
    commission_percent := if base_cost > 0 then commission / base_cost * 100 else 0 }

/-! ## Portfolio aggregation (`app/telegram_bot.py`) -/

/-- One raw position record of the brokerage `get_portfolio` response, as
`_get_account_portfolio_data` reads it: `quantity.units`, and
`units + nano / 1e9` for current and average price. -/
structure RawPosition where
  qUnits : ℤ
  cpUnits : ℤ
  cpNano : ℤ
  apUnits : ℤ
  apNano : ℤ
deriving DecidableEq

/-- `position.current_price.units + position.current_price.nano / 1e9`. -/
def RawPosition.currentPrice (p : RawPosition) : ℚ :=
  (p.cpUnits : ℚ) + (p.cpNano : ℚ) / 1000000000

/-- `position.average_position_price.units + ... nano / 1e9`. -/
def RawPosition.averagePrice (p : RawPosition) : ℚ :=
  (p.apUnits : ℚ) + (p.apNano : ℚ) / 1000000000

/-- One raw money record of the brokerage `get_positions` response. -/
structure RawMoney where
  currency : String
  units : ℤ
  nano : ℤ
deriving DecidableEq

/-- Raw data for one account: portfolio positions plus money records. -/
structure RawAccount where
  positions : List RawPosition
  money : List RawMoney
deriving DecidableEq

/-- One entry of the `positions_list` built by `_get_account_portfolio_data`
(`app/telegram_bot.py` lines 289-300). The instrument name/ticker lookup is a
side channel that never affects the numeric fields and is omitted. -/
structure PositionEntry where
  quantity : ℤ
  value : ℚ
  invested_value : ℚ
  current_price : ℚ
  average_price : ℚ
  real_yield : ℚ
  yield_percentage : ℚ
deriving DecidableEq

/-- The per-position record appended for a raw position
(`app/telegram_bot.py` lines 231-300). -/
def processPosition (p : RawPosition) : PositionEntry :=
  let quantity := p.qUnits
  let current_price := p.currentPrice
  let average_price := p.averagePrice
  let position_value := (quantity : ℚ) * current_price
  let invested_value := (quantity : ℚ) * average_price
  let real_yield := position_value - invested_value
  { quantity := quantity, value := position_value, invested_value := invested_value,
    current_price := current_price, average_price := average_price,
    real_yield := real_yield,
    yield_percentage := if invested_value > 0 then real_yield / invested_value * 100 else 0 }

/-- The dict returned by `_get_account_portfolio_data`
(`app/telegram_bot.py` lines 326-335), minus the opaque `account_id` and the
display metadata attached by the caller. -/
structure AccountData where
  total_value : ℚ
  total_invested : ℚ
  available_cash : ℚ
  total_real_yield : ℚ
  total_yield_percentage : ℚ
  positions : List PositionEntry
  positions_count : ℕ
deriving DecidableEq

/-- Cash extraction from the `get_positions` money records
(`app/telegram_bot.py` lines 305-316): only `currency == 'rub'` records are
summed. -/
def availableCashOf (money : List RawMoney) : ℚ :=
  money.foldl
    (fun acc m =>
      if m.currency = "rub" then acc + ((m.units : ℚ) + (m.nano : ℚ) / 1000000000)
      else acc) 0

/-- `TradingBot._get_account_portfolio_data` (`app/telegram_bot.py`
lines 206-339) on successfully fetched raw data. Every position of the
portfolio response is processed and appended: the per-position `try` block can
only fail in the instrument-info side channel, which is caught by its inner
handler, so no position is skipped. -/
def processAccount (raw : RawAccount) : AccountData :=
  let entries := raw.positions.map processPosition
  let total_value := entries.foldl (fun acc e => acc + e.value) 0
  let total_invested := entries.foldl (fun acc e => acc + e.invested_value) 0
  let available_cash := availableCashOf raw.money
  let total_real_yield := total_value - total_invested
  { total_value := total_value, total_invested := total_invested,
    available_cash := available_cash, total_real_yield := total_real_yield,
    total_yield_percentage :=
      if total_invested > 0 then total_real_yield / total_invested * 100 else 0,
    positions := entries, positions_count := entries.length }

/-- The dict returned by `_get_all_accounts_portfolio_data`
(`app/telegram_bot.py` lines 190-200), minus the constant data-source flags. -/
structure ConsolidatedData where
  accounts : List AccountData
  total_portfolio_value : ℚ
  total_invested : ℚ
  total_cash : ℚ
  total_real_yield : ℚ
  total_yield_percentage : ℚ
  account_count : ℕ
deriving DecidableEq

/-- `TradingBot._get_all_accounts_portfolio_data` (`app/telegram_bot.py`
lines 145-204) over the per-account fetch outcomes, in account order.
`none` models `_get_account_portfolio_data` returning `None` (its
`except` handler swallows any fetch error); such an account is skipped by the
`if account_data:` guard with no failure flag recorded. -/
def aggregateAccounts (fetched : List (Option AccountData)) : ConsolidatedData :=
  let successes := fetched.filterMap id
  let total_portfolio_value := successes.foldl (fun acc a => acc + a.total_value) 0
  let total_invested := successes.foldl (fun acc a => acc + a.total_invested) 0
  let total_cash := successes.foldl (fun acc a => acc + a.available_cash) 0
  let total_real_yield := total_portfolio_value - total_invested
  { accounts := successes,
    total_portfolio_value := total_portfolio_value,
    total_invested := total_invested,
    total_cash := total_cash,
    total_real_yield := total_real_yield,
    total_yield_percentage :=
      if total_invested > 0 then total_real_yield / total_invested * 100 else 0,
    account_count := successes.length }

/-! ## AI provider router (`app/ai_manager.py`) -/

/-- Outcome of one `provider.generate_response` call: a returned string or a
raised exception. -/
inductive ProviderOutcome where
  | resp (s : String)
  | exn
deriving DecidableEq

/-- The router state: the ordered provider map (Python dicts iterate in
registration order) and the mutable `active_provider` name. -/
structure Router where
  providers : List (String × ProviderOutcome)
  active : String

/-- A provider attempt fails when it throws or its response is
error-classified. -/
def outcomeFails (o : ProviderOutcome) : Prop :=
  o = .exn ∨ ∃ s, o = .resp s ∧ isErrorResponse s = true

/-- The `for provider_name, provider in self.providers.items()` loop of
`AIManager.generate_response` (`app/ai_manager.py` lines 374-383): skip the
active provider, return the first non-error response together with its
provider name; also reports the names invoked, in order. -/
def tryOthers (active : String) : List (String × ProviderOutcome) →
    List String × Option (String × String)
  | [] => ([], none)
  | (n, o) :: rest =>
    if n = active then tryOthers active rest
    else
      match o with
      | .exn =>
        let r := tryOthers active rest
        (n :: r.1, r.2)
      | .resp s =>
        if isErrorResponse s then
          let r := tryOthers active rest
          (n :: r.1, r.2)
        else ([n], some (n, s))

/-- Result of one `generate_response` call: the named providers invoked in
order, the returned response (`none` when the basic fallback AI is used), and
the router state afterwards. -/
structure RespondResult where
  trace : List String
  response : Option String
  router : Router

/-- `AIManager.generate_response` (`app/ai_manager.py` lines 362-387): try the
active provider first (when it is a named provider), then the remaining named
providers in registration order, persisting the first success as the new
active provider; otherwise fall through to the fallback AI (`response :=
none`, trace records named providers only). -/
def respond (r : Router) : RespondResult :=
  let activeStep : List String × Option String :=
    match r.providers.lookup r.active with
    | some o =>
      if r.active = "fallback" then ([], none)
      else
        match o with
        | .exn => ([r.active], none)
        | .resp s => ([r.active], if isErrorResponse s then none else some s)
    | none => ([], none)
  match activeStep.2 with
  | some s => { trace := activeStep.1, response := some s, router := r }
  | none =>
    let others := tryOthers r.active r.providers
    match others.2 with
    | some (n, s) =>
      { trace := activeStep.1 ++ others.1, response := some s,
        router := { r with active := n } }
    | none =>
      { trace := activeStep.1 ++ others.1, response := none, router := r }

/-- The dict returned by `AIManager.get_provider_info`
(`app/ai_manager.py` lines 403-411). -/
structure ProviderInfo where
  active_provider : String
  available_providers : List String
  fallback_available : Bool
  providers_count : ℕ
deriving DecidableEq

/-- `AIManager.get_provider_info`. -/
def getProviderInfo (r : Router) : ProviderInfo :=
  { active_provider := r.active,
    available_providers := r.providers.map (·.1),
    fallback_available := true,
    providers_count := r.providers.length }

/-! ## Strategy synthesis pipeline (`app/ai_manager.py`) -/

/-- Python `int(x)` on a rational: truncation toward zero. -/
def pyTrunc (q : ℚ) : ℤ := if 0 ≤ q then ⌊q⌋ else ⌈q⌉

/-- The values `json.loads` can produce. -/
inductive JVal where
  | jnum (q : ℚ)
  | jstr (s : String)
  | jbool (b : Bool)
  | jnull
  | jarr (xs : List JVal)
  | jobj (fields : List (String × JVal))

/-- A parsed top-level strategy object: its fields in order. -/
abbrev StrategyDict := List (String × JVal)

/-- Python `d[k] = v` on a dict: replace in place, else append. -/
def setKey : List (String × JVal) → String → JVal → List (String × JVal)
  | [], k, v => [(k, v)]
  | (k', v') :: t, k, v =>
    if k' = k then (k, v) :: t else (k', v') :: setKey t k v

/-- The numeric value a Python comparison `v < 5` sees: numbers directly,
booleans as 0/1 (`bool` is an `int` in Python); any other value raises
`TypeError` (`none`). -/
def getCmpNum : JVal → Option ℚ
  | .jnum q => some q
  | .jbool b => some (if b then 1 else 0)
  | _ => none

/-- `AIManager._validate_strategy_quality` (`app/ai_manager.py` lines 255-278):
required fields present, `actions` a list, `target_return` in `[5, 50]`;
any exception inside (e.g. comparing a non-number) is caught and yields
`False`. -/
def validateStrategy (s : StrategyDict) : Bool :=
  if (["strategy_name", "target_return", "risk_level", "actions"].all
      fun f => (s.lookup f).isSome) then
    match s.lookup "actions" with
    | some (.jarr _) =>
      match (s.lookup "target_return").bind getCmpNum with
      | some q => decide (¬(q < 5 ∨ q > 50))
      | none => false
    | _ => false
  else false

/-- Inputs of `_enhance_strategy_with_portfolio_data` and
`_generate_optimized_fallback_strategy` read from the portfolio dict; `now`
captures `datetime.now().isoformat()` as an ambient input. -/
structure PortfolioStats where
  total_portfolio_value : ℚ
  total_cash : ℚ
  account_count : ℕ
  now : String

/-- The loop body of `_enhance_strategy_with_portfolio_data`
(`app/ai_manager.py` lines 233-243) on one element of the `actions` value.
`none` models an exception escaping to `_parse_optimized_strategy_response`'s
handler: non-numeric arithmetic, division by a zero price, or a missing or
non-string `reason` on the adjustment path. For non-dict elements, Python's
`'quantity' in action` is substring/membership search, modelled per shape. -/
def enhanceListElem (tv : ℚ) : JVal → Option JVal
  | .jobj fs =>
    match fs.lookup "quantity", fs.lookup "current_price" with
    | some qv, some pv =>
      (match qv, pv with
       | .jnum q, .jnum p =>
         if q * p > tv * (15/100) then
           if p = 0 then none
           else
             match fs.lookup "reason" with
             | some (.jstr rsn) =>
               some (.jobj (setKey
                 (setKey fs "quantity"
                   (.jnum ((max (pyTrunc (tv * (15/100) / p)) 1 : ℤ) : ℚ)))
                 "reason" (.jstr (rsn ++ " (скорректировано под размер портфеля)"))))
             | _ => none
         else some (.jobj fs)
       | _, _ => none)
    | _, _ => some (.jobj fs)
  | .jstr t =>
    if strContains t "quantity" && strContains t "current_price" then none
    else some (.jstr t)
  | .jarr xs =>
    if (xs.any fun v => match v with | .jstr s => s = "quantity" | _ => false)
        && (xs.any fun v => match v with | .jstr s => s = "current_price" | _ => false)
    then none
    else some (.jarr xs)
  | _ => none

/-- The `for action in strategy['actions']` iteration over the `actions`
value: lists iterate their elements; strings iterate one-character strings
(never containing the probed keys, hence untouched); dicts iterate their keys
(raising only if a key contains both probed names as substrings); other
values are not iterable (`TypeError`, hence `none`). -/
def enhanceActionsVal (tv : ℚ) : JVal → Option JVal
  | .jarr xs => (xs.mapM (enhanceListElem tv)).map .jarr
  | .jstr t => some (.jstr t)
  | .jobj fs =>
    if fs.any fun kv => strContains kv.1 "quantity" && strContains kv.1 "current_price"
    then none
    else some (.jobj fs)
  | _ => none

/-- The `portfolio_context` dict attached by
`_enhance_strategy_with_portfolio_data` (`app/ai_manager.py` lines 246-251). -/
def portfolioContext (pd : PortfolioStats) : JVal :=
  .jobj [("total_value", .jnum pd.total_portfolio_value),
         ("available_cash", .jnum pd.total_cash),
         ("account_count", .jnum pd.account_count),
         ("optimization_timestamp", .jstr pd.now)]

/-- `AIManager._enhance_strategy_with_portfolio_data`
(`app/ai_manager.py` lines 226-253). -/
def enhanceStrategy (pd : PortfolioStats) (s : StrategyDict) : Option StrategyDict :=
  match s.lookup "actions" with
  | none => some (setKey s "portfolio_context" (portfolioContext pd))
  | some v =>
    (enhanceActionsVal pd.total_portfolio_value v).map fun v' =>
      setKey (setKey s "actions" v') "portfolio_context" (portfolioContext pd)

/-- `AIManager._generate_optimized_fallback_strategy`
(`app/ai_manager.py` lines 280-360), verbatim as a JSON-shaped literal. -/
def fallbackStrategy (pd : PortfolioStats) : StrategyDict :=
  let total_value := pd.total_portfolio_value
  let base_position_size := total_value * (8/100)
  [("strategy_name", .jstr "Агрессивная стратегия роста"),
   ("target_return", .jnum (37/2)),
   ("risk_level", .jstr "high"),
   ("time_horizon", .jstr "1-3 months"),
   ("max_portfolio_utilization", .jnum 92),
   ("actions", .jarr
     [.jobj [("action", .jstr "BUY"), ("ticker", .jstr "YNDX"),
             ("quantity", .jnum ((max 1 (pyTrunc (base_position_size * (6/10) / 3500)) : ℤ) : ℚ)),
             ("current_price", .jnum 3500),
             ("reason", .jstr "Лидер IT сектора с высоким потенциалом роста"),
             ("expected_impact", .jstr "Потенциальный рост 20-30%"),
             ("urgency", .jstr "high"), ("confidence", .jnum (4/5))],
      .jobj [("action", .jstr "BUY"), ("ticker", .jstr "TCSG"),
             ("quantity", .jnum ((max 1 (pyTrunc (base_position_size * (4/10) / 3500)) : ℤ) : ℚ)),
             ("current_price", .jnum 3500),
             ("reason", .jstr "Финансовый технологический лидер"),
             ("expected_impact", .jstr "Дивиденды + рост капитализации"),
             ("urgency", .jstr "high"), ("confidence", .jnum (3/4))],
      .jobj [("action", .jstr "SELL"), ("ticker", .jstr "GAZP"),
             ("quantity", .jnum 50), ("current_price", .jnum 160),
             ("reason", .jstr "Низкая динамика и доходность"),
             ("expected_impact", .jstr "Высвобождение капитала для роста"),
             ("urgency", .jstr "medium"), ("confidence", .jnum (7/10))]]),
   ("portfolio_optimization", .jobj
     [("target_allocation", .jobj
        [("high_growth_stocks", .jnum 65), ("dividend_stocks", .jnum 20),
         ("bonds", .jnum 5), ("cash", .jnum 8)]),
      ("sector_focus", .jobj
        [("technology", .jnum 40), ("finance", .jnum 30),
         ("energy", .jnum 15), ("consumer", .jnum 10)])]),
   ("risk_management", .jobj
     [("stop_loss_level", .jnum 10), ("take_profit_level", .jnum 30),
      ("max_position_size", .jnum 15), ("daily_loss_limit", .jnum (5/2))]),
   ("performance_metrics", .jobj
     [("expected_sharpe_ratio", .jnum (8/5)), ("max_drawdown", .jnum 18),
      ("volatility", .jnum 22)]),
   ("portfolio_context", .jobj
     [("total_value", .jnum total_value),
      ("available_cash", .jnum pd.total_cash),
      ("account_count", .jnum pd.account_count),
      ("optimization_timestamp", .jstr pd.now),
      ("fallback_strategy", .jbool true)])]

/-- One provider attempt inside `generate_portfolio_strategy`: the attempt
input is the raw strategy object extracted by
`_parse_optimized_strategy_response` (`none` when the provider threw, the
response held no `{...}` block, or `json.loads` failed); the step enhances it
and accepts it only if `_validate_strategy_quality` passes. -/
def parseStep (pd : PortfolioStats) (attempt : Option StrategyDict) : Option StrategyDict :=
  match attempt.bind (enhanceStrategy pd) with
  | some s => if validateStrategy s then some s else none
  | none => none

/-- `AIManager.generate_portfolio_strategy` (`app/ai_manager.py` lines 71-104)
over the ordered provider attempts (active provider first, then the others in
registration order): the first accepted strategy is returned, otherwise the
algorithmic fallback strategy. Every failure path, including exceptions, ends
in `_generate_optimized_fallback_strategy`, so generation is total. -/
def generateStrategy (pd : PortfolioStats) : List (Option StrategyDict) → StrategyDict
  | [] => fallbackStrategy pd
  | a :: rest =>
    match parseStep pd a with
    | some s => s
    | none => generateStrategy pd rest

/-- Number of entries of the `actions` list of a strategy. -/
def actionCount (s : StrategyDict) : ℕ :=
  match s.lookup "actions" with
  | some (.jarr xs) => xs.length
  | _ => 0

/-- Whether a strategy carries the algorithmic-fallback marker the source
attaches (`portfolio_context.fallback_strategy == True`,
`app/ai_manager.py` line 358). -/
def isFallbackMarked (s : StrategyDict) : Bool :=
  match s.lookup "portfolio_context" with
  | some (.jobj fs) =>
    match fs.lookup "fallback_strategy" with
    | some (.jbool b) => b
    | _ => false
  | _ => false

/-! ## Theorems -/

/-- Every tariff type resolves to one of the four static tier entries. -/
lemma commissionRatesFor_cases (t : String) :
    commissionRatesFor t = commissionRatesFor "investor"
    ∨ commissionRatesFor t = commissionRatesFor "trader"
    ∨ commissionRatesFor t = commissionRatesFor "premium"
    ∨ commissionRatesFor t = commissionRatesFor "standard" := by
  by_cases h1 : t = "investor"
  · exact Or.inl (by rw [h1])
  by_cases h2 : t = "trader"
  · exact Or.inr (Or.inl (by rw [h2]))
  by_cases h3 : t = "premium"
  · exact Or.inr (Or.inr (Or.inl (by rw [h3])))
  · refine Or.inr (Or.inr (Or.inr ?_))
    unfold commissionRatesFor
    rw [if_neg h1, if_neg h2, if_neg h3]
    rfl

/-- C3: for a trade of quantity `q` at price `p` under a tariff with
per-action rates and minimum commission `m`, the cost computation returns
`grossAmount = q*p`, `commission = max(q*p * rate/100, m)` (rate selected by
the action: buy rate for BUY, sell rate for SELL), `totalCost = gross +
commission` for BUY and `gross - commission` for SELL; in particular when
`q*p = 0` and `m > 0` the commission is `m`, not 0. -/
theorem C3_cost_computation (r : CommissionRates) (q p : ℚ) :
    (calcTotalCost r "BUY" q p).base_cost = q * p
    ∧ (calcTotalCost r "BUY" q p).commission = max (q * p * (r.buy / 100)) r.min_commission
    ∧ (calcTotalCost r "BUY" q p).total_cost
        = (calcTotalCost r "BUY" q p).base_cost + (calcTotalCost r "BUY" q p).commission
    ∧ (calcTotalCost r "SELL" q p).base_cost = q * p
    ∧ (calcTotalCost r "SELL" q p).commission = max (q * p * (r.sell / 100)) r.min_commission
    ∧ (calcTotalCost r "SELL" q p).total_cost
        = (calcTotalCost r "SELL" q p).base_cost - (calcTotalCost r "SELL" q p).commission
    ∧ (q * p = 0 → 0 < r.min_commission →
        calcCommission r "BUY" q p = r.min_commission
        ∧ calcCommission r "SELL" q p = r.min_commission) := by
  refine ⟨rfl, rfl, rfl, rfl, rfl, rfl, ?_⟩
  intro h1 h2
  constructor
  · show max (q * p * (r.buy / 100)) r.min_commission = r.min_commission
    rw [h1, zero_mul]
    exact max_eq_right h2.le
  · show max (q * p * (r.sell / 100)) r.min_commission = r.min_commission
    rw [h1, zero_mul]
    exact max_eq_right h2.le

/-- Witness for C3 at the standard tariff: a zero-gross BUY trade is charged
the 1-ruble minimum commission, not 0. -/
theorem C3_cost_computation_witness :
    calcCommission ⟨1/20, 1/20, 1, "Стандартные условия"⟩ "BUY" 0 300 = 1 :=
  ((C3_cost_computation ⟨1/20, 1/20, 1, "Стандартные условия"⟩ 0 300).2.2.2.2.2.2
    (by norm_num) (by norm_num)).1

/-- C6 counterexample: the claim's English markers "unavailable",
"rate limit" and "insufficient funds" are NOT detected by the source's
classifier (`_is_error_response`), which carries only their Russian
equivalents; the claim's "both the English and Russian marker sets are
detected" fails on these inputs. -/
theorem C6_counterexample :
    isErrorResponse "unavailable" = false
    ∧ isErrorResponse "rate limit" = false
    ∧ isErrorResponse "insufficient funds" = false := by
  refine ⟨?_, ?_, ?_⟩ <;> rfl

/-- C6 (amended): the classifier marks a response erroneous exactly when it is
empty or contains (case-insensitively) one of the source's actual markers
`{недоступен, ошибка, error, ❌, ключ, средств, лимит, invalid,
authentication, ssl, certificate, таймаут, timeout, connection}`; the English
equivalents of the Russian-only markers (unavailable, rate limit,
insufficient funds) are not detected, and the broader markers `invalid` and
`ключ` stand in place of "invalid key". -/
theorem C6_error_classifier (s : String) :
    isErrorResponse s = true ↔
      s = "" ∨ ∃ m ∈ errorIndicators, strContains (lowerStr s) m = true := by
  unfold isErrorResponse
  by_cases h : s = ""
  · simp [h]
  · simp [h, List.any_eq_true]

/-- C8: tariff resolution is total — if detection throws, the standard-tier
default is returned (buy rate 0.05%, sell rate 0.05%, minimum commission 1.0,
monthly fee 0); on every input the resolved commission-rate entry is one of
the four static tier entries, and the rate accessor always returns one of the
tier's numeric fields or the 0.05 default. -/
theorem C8_tariff_resolution_total :
    getTariffInfo (.error ()) = defaultTariff
    ∧ defaultTariff.commission_rates.buy = 5/100
    ∧ defaultTariff.commission_rates.sell = 5/100
    ∧ defaultTariff.commission_rates.min_commission = 1
    ∧ defaultTariff.monthly_fee = 0
    ∧ (∀ d : Except Unit (UserInfo × AccountsMeta),
        (getTariffInfo d).commission_rates = commissionRatesFor "investor"
        ∨ (getTariffInfo d).commission_rates = commissionRatesFor "trader"
        ∨ (getTariffInfo d).commission_rates = commissionRatesFor "premium"
        ∨ (getTariffInfo d).commission_rates = commissionRatesFor "standard")
    ∧ (∀ (r : CommissionRates) (op : String),
        getCommissionRate r op = r.buy ∨ getCommissionRate r op = r.sell
        ∨ getCommissionRate r op = r.min_commission ∨ getCommissionRate r op = 1/20) := by
  refine ⟨rfl, by show (1/20 : ℚ) = 5/100; norm_num,
    by show (1/20 : ℚ) = 5/100; norm_num, rfl, rfl, ?_, ?_⟩
  · intro d
    match d with
    | .error _ => exact commissionRatesFor_cases "standard"
    | .ok (u, a) => exact commissionRatesFor_cases (analyzedTariffType u a).2
  · intro r op
    unfold getCommissionRate
    split_ifs <;> tauto

/-- Left fold of `acc + f x` starting from `init` is `init` plus the sum. -/
lemma foldl_add_eq_sum {α : Type} (f : α → ℚ) (l : List α) :
    ∀ init : ℚ, l.foldl (fun acc x => acc + f x) init = init + (l.map f).sum := by
  induction l with
  | nil => intro init; simp
  | cons x t ih =>
    intro init
    simp only [List.foldl_cons, List.map_cons, List.sum_cons, ih, add_assoc]

/-- C1 counterexample (Scenario A): Account1 holds SBER qty=100 at
currentPrice=300 (avg 250) with 10000 cash; Account2 has no positions and
5000 cash. The consolidated `total_portfolio_value` is 30000 — the
per-account totals exclude cash — not the claimed 45000. -/
theorem C1_counterexample :
    (aggregateAccounts
      [some (processAccount ⟨[⟨100, 300, 0, 250, 0⟩], [⟨"rub", 10000, 0⟩]⟩),
       some (processAccount ⟨[], [⟨"rub", 5000, 0⟩]⟩)]).total_portfolio_value = 30000
    ∧ (30000 : ℚ) ≠ 45000 := by
  constructor
  · norm_num [aggregateAccounts, processAccount, processPosition, availableCashOf,
      RawPosition.currentPrice, RawPosition.averagePrice, List.filterMap]
  · norm_num

/-- C1 (amended): the consolidated `total_portfolio_value` is the exact sum of
the per-account `total_value`s, where each account's `total_value` is the sum
of its positions' market values (`quantity * currentPrice`) only — cash is
excluded and aggregated separately into `total_cash`. For Scenario A the
consolidated value is 30000, with `total_cash = 15000` and
`total_invested = 25000`. -/
theorem C1_aggregation_sum (fetched : List (Option AccountData)) (raw : RawAccount) :
    (aggregateAccounts fetched).total_portfolio_value
      = ((fetched.filterMap id).map (·.total_value)).sum
    ∧ (aggregateAccounts fetched).total_cash
      = ((fetched.filterMap id).map (·.available_cash)).sum
    ∧ (processAccount raw).total_value
      = (raw.positions.map fun p => (p.qUnits : ℚ) * p.currentPrice).sum
    ∧ (aggregateAccounts
        [some (processAccount ⟨[⟨100, 300, 0, 250, 0⟩], [⟨"rub", 10000, 0⟩]⟩),
         some (processAccount ⟨[], [⟨"rub", 5000, 0⟩]⟩)]).total_portfolio_value = 30000
    ∧ (aggregateAccounts
        [some (processAccount ⟨[⟨100, 300, 0, 250, 0⟩], [⟨"rub", 10000, 0⟩]⟩),
         some (processAccount ⟨[], [⟨"rub", 5000, 0⟩]⟩)]).total_cash = 15000
    ∧ (aggregateAccounts
        [some (processAccount ⟨[⟨100, 300, 0, 250, 0⟩], [⟨"rub", 10000, 0⟩]⟩),
         some (processAccount ⟨[], [⟨"rub", 5000, 0⟩]⟩)]).total_invested = 25000 := by
  refine ⟨?_, ?_, ?_, ?_, ?_, ?_⟩
  · show (fetched.filterMap id).foldl (fun acc a => acc + a.total_value) 0 = _
    rw [foldl_add_eq_sum, zero_add]
  · show (fetched.filterMap id).foldl (fun acc a => acc + a.available_cash) 0 = _
    rw [foldl_add_eq_sum, zero_add]
  · show (raw.positions.map processPosition).foldl (fun acc e => acc + e.value) 0 = _
    rw [foldl_add_eq_sum, zero_add, List.map_map]
    congr 1
  · norm_num [aggregateAccounts, processAccount, processPosition, availableCashOf,
      RawPosition.currentPrice, RawPosition.averagePrice, List.filterMap]
  · norm_num [aggregateAccounts, processAccount, processPosition, availableCashOf,
      RawPosition.currentPrice, RawPosition.averagePrice, List.filterMap]
  · norm_num [aggregateAccounts, processAccount, processPosition, availableCashOf,
      RawPosition.currentPrice, RawPosition.averagePrice, List.filterMap]

/-- C2 counterexample: an account whose portfolio holds a single position with
quantity 0 (current price 100) yields an aggregated position list containing
that position — it is retained with value 0, not dropped. (The
`quantity <= 0: continue` filter exists only in the separate health-monitor
snapshot, not in this aggregator.) -/
theorem C2_counterexample :
    (processAccount ⟨[⟨0, 100, 0, 0, 0⟩], []⟩).positions_count = 1
    ∧ (processAccount ⟨[⟨0, 100, 0, 0, 0⟩], []⟩).positions.map (·.quantity) = [0] := by
  exact ⟨rfl, rfl⟩

/-- C2 (amended): the aggregated position list retains every input position
regardless of quantity — one entry per raw position, quantities preserved —
so zero- or negative-quantity positions appear (with market value
`quantity * price`) instead of being dropped. -/
theorem C2_positions_retained (raw : RawAccount) :
    (processAccount raw).positions.map (·.quantity) = raw.positions.map (·.qUnits)
    ∧ (processAccount raw).positions_count = raw.positions.length := by
  constructor
  · show (raw.positions.map processPosition).map (·.quantity) = _
    rw [List.map_map]
    exact List.map_congr_left fun a _ => rfl
  · show (raw.positions.map processPosition).length = _
    rw [List.length_map]

/-- C7: if an account's fetch fails during multi-account aggregation
(`_get_account_portfolio_data` swallows the exception and returns `None`),
the aggregator's output is exactly the output for the input without that
account: the failed account's contribution is silently dropped, the account
count only counts successes, and no field of the result flags the failure —
contradicting the spec's requirement to propagate a partial-failure signal. -/
theorem C7_silent_drop (a : AccountData) (pre post : List (Option AccountData)) :
    aggregateAccounts (pre ++ none :: post) = aggregateAccounts (pre ++ post)
    ∧ aggregateAccounts [some a, none] = aggregateAccounts [some a]
    ∧ (aggregateAccounts [some a, none]).account_count = 1 := by
  refine ⟨?_, rfl, rfl⟩
  unfold aggregateAccounts
  rw [List.filterMap_append, List.filterMap_cons, List.filterMap_append]
  rfl

/-- C4: with providers `[A, B]` in registration order, A active and failing
(throwing or answering an error-classified string) and B succeeding, one
`generate_response` call invokes A then B, returns B's response, and persists
B as the active provider (observable through `get_provider_info`); the next
call invokes only B — the previously failed provider is not retried. -/
theorem C4_failover_sticky (a b sB : String) (fa : ProviderOutcome)
    (hab : a ≠ b) (haf : a ≠ "fallback") (hbf : b ≠ "fallback")
    (hfa : outcomeFails fa) (hsB : isErrorResponse sB = false) :
    respond ⟨[(a, fa), (b, .resp sB)], a⟩
      = ⟨[a, b], some sB, ⟨[(a, fa), (b, .resp sB)], b⟩⟩
    ∧ (getProviderInfo (respond ⟨[(a, fa), (b, .resp sB)], a⟩).router).active_provider = b
    ∧ respond ⟨[(a, fa), (b, .resp sB)], b⟩
      = ⟨[b], some sB, ⟨[(a, fa), (b, .resp sB)], b⟩⟩ := by
  have hba : (b == a) = false := beq_eq_false_iff_ne.mpr (Ne.symm hab)
  have hbb : (b == b) = true := beq_self_eq_true b
  have haa : (a == a) = true := beq_self_eq_true a
  have hba' : ¬(b = a) := Ne.symm hab
  have h1 : respond ⟨[(a, fa), (b, .resp sB)], a⟩
      = ⟨[a, b], some sB, ⟨[(a, fa), (b, .resp sB)], b⟩⟩ := by
    rcases hfa with hexn | ⟨s, hresp, herr⟩
    · subst hexn
      simp [respond, tryOthers, List.lookup, haa, hba, hbb, haf, hba', hsB]
    · subst hresp
      simp [respond, tryOthers, List.lookup, haa, hba, hbb, haf, hba', hsB, herr]
  have h2 : respond ⟨[(a, fa), (b, .resp sB)], b⟩
      = ⟨[b], some sB, ⟨[(a, fa), (b, .resp sB)], b⟩⟩ := by
    simp [respond, tryOthers, List.lookup, hba, hbb, hbf, hsB]
  refine ⟨h1, ?_, h2⟩
  rw [h1]
  rfl

/-- Witness for C4: OpenRouter active and error-classified, DeepSeek healthy —
after one call DeepSeek is the persisted active provider. -/
theorem C4_failover_sticky_witness :
    respond ⟨[("openrouter", .resp "ошибка api"), ("deepseek", .resp "Стратегия готова")],
             "openrouter"⟩
      = ⟨["openrouter", "deepseek"], some "Стратегия готова",
         ⟨[("openrouter", .resp "ошибка api"), ("deepseek", .resp "Стратегия готова")],
          "deepseek"⟩⟩ :=
  (C4_failover_sticky "openrouter" "deepseek" "Стратегия готова" (.resp "ошибка api")
    (by decide) (by decide) (by decide)
    (Or.inr ⟨"ошибка api", rfl, by rfl⟩) (by rfl)).1

/-- If every provider attempt is rejected, generation reaches the algorithmic
fallback. -/
lemma generateStrategy_all_fail (pd : PortfolioStats) :
    ∀ l : List (Option StrategyDict), (∀ a ∈ l, parseStep pd a = none) →
      generateStrategy pd l = fallbackStrategy pd := by
  intro l
  induction l with
  | nil => intro _; rfl
  | cons a rest ih =>
    intro h
    have ha : parseStep pd a = none := h a (by simp)
    simp only [generateStrategy, ha]
    exact ih fun x hx => h x (by simp [hx])

/-- C5: when every named provider attempt fails (throws, yields no parseable
JSON strategy, or fails quality validation), strategy generation still
returns a strategy — the algorithmic fallback, carrying the source's fallback
marker (`portfolio_context.fallback_strategy == True`, the code's counterpart
of `source == "algorithm-fallback"`) with exactly 3 actions (within the cap
of 5); no AI-unavailability error escapes. -/
theorem C5_fallback_is_total (pd : PortfolioStats) (attempts : List (Option StrategyDict))
    (h : ∀ a ∈ attempts, parseStep pd a = none) :
    generateStrategy pd attempts = fallbackStrategy pd
    ∧ isFallbackMarked (generateStrategy pd attempts) = true
    ∧ actionCount (generateStrategy pd attempts) = 3
    ∧ actionCount (generateStrategy pd attempts) ≤ 5 := by
  have hg := generateStrategy_all_fail pd attempts h
  rw [hg]
  refine ⟨rfl, rfl, rfl, ?_⟩
  show (3 : ℕ) ≤ 5
  norm_num

/-- Witness for C5: a single throwing provider attempt on a concrete
portfolio still yields the fallback strategy. -/
theorem C5_fallback_is_total_witness :
    generateStrategy ⟨1000000, 100000, 1, "2025-01-01T00:00:00"⟩ [none]
      = fallbackStrategy ⟨1000000, 100000, 1, "2025-01-01T00:00:00"⟩ :=
  (C5_fallback_is_total ⟨1000000, 100000, 1, "2025-01-01T00:00:00"⟩ [none]
    (by intro a ha; rw [List.mem_singleton] at ha; subst ha; rfl)).1

/-- `setKey` does not disturb lookups of other keys. -/
lemma lookup_setKey_ne (k k' : String) (v : JVal) (h : k' ≠ k) :
    ∀ s : List (String × JVal), (setKey s k v).lookup k' = s.lookup k'
  | [] => by simp [setKey, List.lookup, beq_eq_false_iff_ne.mpr h]
  | (k1, v1) :: t => by
    by_cases hk : k1 = k
    · subst hk
      simp [setKey, List.lookup, beq_eq_false_iff_ne.mpr h]
    · simp only [setKey, if_neg hk, List.lookup]
      cases hbeq : (k' == k1)
      · simp [lookup_setKey_ne k k' v h t]
      · simp

/-- Characterization of `_validate_strategy_quality`. -/
lemma validateStrategy_iff (t : StrategyDict) :
    validateStrategy t = true ↔
      ((t.lookup "strategy_name").isSome ∧ (t.lookup "risk_level").isSome
       ∧ (∃ xs, t.lookup "actions" = some (.jarr xs))
       ∧ ∃ q, (t.lookup "target_return").bind getCmpNum = some q ∧ 5 ≤ q ∧ q ≤ 50) := by
  constructor
  · intro hv
    unfold validateStrategy at hv
    by_cases hall : (["strategy_name", "target_return", "risk_level", "actions"].all
        fun f => (t.lookup f).isSome) = true
    · rw [if_pos hall] at hv
      have hmem := List.all_eq_true.mp hall
      have h1 := hmem "strategy_name" (by simp)
      have h3 := hmem "risk_level" (by simp)
      rcases hact : t.lookup "actions" with _ | (_ | _ | _ | _ | xs | _) <;>
        simp only [hact] at hv <;>
        try exact absurd hv Bool.false_ne_true
      rcases hq : (t.lookup "target_return").bind getCmpNum with _ | q <;>
        simp only [hq] at hv
      · exact absurd hv Bool.false_ne_true
      · simp only [decide_eq_true_eq] at hv
        push_neg at hv
        exact ⟨h1, h3, ⟨xs, rfl⟩, q, rfl, hv.1, hv.2⟩
    · rw [if_neg hall] at hv
      exact absurd hv Bool.false_ne_true
  · rintro ⟨h1, h3, ⟨xs, hact⟩, q, hq, h5, h50⟩
    have h2 : (t.lookup "target_return").isSome = true := by
      rcases ht : t.lookup "target_return" with _ | v
      · rw [ht] at hq; exact absurd hq (by simp)
      · rfl
    unfold validateStrategy
    rw [if_pos ?hall]
    case hall =>
      rw [List.all_eq_true]
      intro f hf
      simp only [List.mem_cons, List.not_mem_nil, or_false] at hf
      rcases hf with rfl | rfl | rfl | rfl
      · exact h1
      · exact h2
      · exact h3
      · rw [hact]; rfl
    rw [hact]
    show (match (t.lookup "target_return").bind getCmpNum with
          | some q => decide (¬(q < 5 ∨ q > 50))
          | none => false) = true
    rw [hq]
    simp only [decide_eq_true_eq]
    push_neg
    exact ⟨h5, h50⟩

/-- `_enhance_strategy_with_portfolio_data` never touches `target_return`. -/
lemma enhance_preserves_target (pd : PortfolioStats) (s s' : StrategyDict)
    (h : enhanceStrategy pd s = some s') :
    s'.lookup "target_return" = s.lookup "target_return" := by
  unfold enhanceStrategy at h
  rcases hact : s.lookup "actions" with _ | v
  · simp only [hact, Option.some.injEq] at h
    subst h
    exact lookup_setKey_ne _ _ _ (by decide) s
  · simp only [hact] at h
    rcases he : enhanceActionsVal pd.total_portfolio_value v with _ | v'
    · rw [he] at h; exact absurd h (by simp)
    · rw [he] at h
      simp only [Option.map_some', Option.some.injEq] at h
      subst h
      rw [lookup_setKey_ne _ _ _ (by decide), lookup_setKey_ne _ _ _ (by decide)]

/-- A strategy whose enhanced form fails validation is rejected by the
provider attempt. -/
lemma parseStep_rejects (pd : PortfolioStats) (s s' : StrategyDict)
    (henh : enhanceStrategy pd s = some s')
    (hval : validateStrategy s' = false) : parseStep pd (some s) = none := by
  show (match (enhanceStrategy pd s) with
        | some u => if validateStrategy u then some u else none
        | none => none) = none
  rw [henh]
  show (if validateStrategy s' = true then some s' else none) = none
  rw [hval]
  simp

/-- C9: a structured-parsed strategy is accepted only if the required fields
(`strategy_name`, `target_return`, `risk_level`, `actions`) are present,
`actions` is a list, and `target_return` is a number in `[5, 50]`; the
enhancement step never rewrites `target_return`, so a value outside `[5, 50]`
makes the attempt fall through (to the next provider or the algorithmic
path) instead of being clamped into range and accepted as AI-sourced. -/
theorem C9_target_return_guard :
    (∀ t : StrategyDict, validateStrategy t = true ↔
       ((t.lookup "strategy_name").isSome ∧ (t.lookup "risk_level").isSome
        ∧ (∃ xs, t.lookup "actions" = some (.jarr xs))
        ∧ ∃ q, (t.lookup "target_return").bind getCmpNum = some q ∧ 5 ≤ q ∧ q ≤ 50))
    ∧ ∀ (pd : PortfolioStats) (s s' : StrategyDict),
        enhanceStrategy pd s = some s' →
        (s'.lookup "target_return" = s.lookup "target_return"
         ∧ ∀ q : ℚ, (s'.lookup "target_return").bind getCmpNum = some q →
             (q < 5 ∨ 50 < q) → parseStep pd (some s) = none) := by
  refine ⟨validateStrategy_iff, ?_⟩
  intro pd s s' henh
  refine ⟨enhance_preserves_target pd s s' henh, ?_⟩
  intro q hq hout
  apply parseStep_rejects pd s s' henh
  cases hval : validateStrategy s' with
  | false => rfl
  | true =>
    obtain ⟨_, _, _, q', hq', h5, h50⟩ := (validateStrategy_iff s').mp hval
    rw [hq] at hq'
    have hqq : q = q' := by injection hq'
    subst hqq
    rcases hout with hlt | hgt
    · exact absurd h5 (not_le.mpr hlt)
    · exact absurd h50 (not_le.mpr hgt)

/-- Witness for C9: a well-formed strategy dict with `target_return = 99`
(outside `[5, 50]`) is rejected by the provider attempt. -/
theorem C9_target_return_guard_witness :
    parseStep ⟨100000, 0, 1, "2025-01-01T00:00:00"⟩
      (some [("strategy_name", .jstr "x"), ("target_return", .jnum 99),
             ("risk_level", .jstr "high"), ("actions", .jarr [])]) = none :=
  ((C9_target_return_guard.2 ⟨100000, 0, 1, "2025-01-01T00:00:00"⟩
      [("strategy_name", .jstr "x"), ("target_return", .jnum 99),
       ("risk_level", .jstr "high"), ("actions", .jarr [])]
      (setKey (setKey
        [("strategy_name", .jstr "x"), ("target_return", .jnum 99),
         ("risk_level", .jstr "high"), ("actions", .jarr [])] "actions" (.jarr []))
        "portfolio_context" (portfolioContext ⟨100000, 0, 1, "2025-01-01T00:00:00"⟩))
      rfl).2 99 rfl (Or.inr (by norm_num)))

/-- Python's `max(int(x), 1)` agrees with `max(1, floor(x))` on rationals:
for nonnegative `x` truncation is the floor, and for negative `x` both
truncation and floor are at most 0, so the maximum is 1 either way. -/
lemma max_pyTrunc_one (x : ℚ) : max (pyTrunc x) 1 = max 1 ⌊x⌋ := by
  unfold pyTrunc
  split_ifs with h
  · rw [max_comm]
  · push_neg at h
    have h1 : ⌈x⌉ ≤ 1 := Int.ceil_le.mpr (by push_cast; linarith)
    have h2 : ⌊x⌋ ≤ 1 := le_trans (Int.floor_le_ceil x) h1
    rw [max_eq_right h1, max_eq_left h2]

/-- C10: in the enhancement step, an action carrying numeric `quantity` and
`current_price` whose position value `quantity * current_price` exceeds 15% of
the portfolio's `total_value` has its quantity rewritten to
`max(1, floor(0.15 * totalValue / current_price))` (and its reason annotated)
before the strategy is returned; because of the minimum of 1, a single-unit
action whose price alone exceeds the 15% cap keeps quantity 1 and passes
through above the cap. -/
theorem C10_position_cap (pd : PortfolioStats) (fs : List (String × JVal))
    (q p : ℚ) (rsn : String)
    (hq : fs.lookup "quantity" = some (.jnum q))
    (hp : fs.lookup "current_price" = some (.jnum p))
    (hr : fs.lookup "reason" = some (.jstr rsn))
    (hgt : q * p > pd.total_portfolio_value * (15/100))
    (hp0 : p ≠ 0) :
    enhanceListElem pd.total_portfolio_value (.jobj fs)
      = some (.jobj (setKey (setKey fs "quantity"
          (.jnum ((max 1 ⌊pd.total_portfolio_value * (15/100) / p⌋ : ℤ) : ℚ)))
          "reason" (.jstr (rsn ++ " (скорректировано под размер портфеля)"))))
    ∧ (q = 1 → 0 ≤ pd.total_portfolio_value → 0 < p →
        (max 1 ⌊pd.total_portfolio_value * (15/100) / p⌋ : ℤ) = 1
        ∧ (1 : ℚ) * p > pd.total_portfolio_value * (15/100)) := by
  constructor
  · simp only [enhanceListElem, hq, hp, hr]
    rw [if_pos hgt, if_neg hp0, max_pyTrunc_one]
  · intro hq1 htv hppos
    subst hq1
    rw [one_mul] at hgt
    constructor
    · have hnn : 0 ≤ pd.total_portfolio_value * (15/100) / p :=
        div_nonneg (mul_nonneg htv (by norm_num)) hppos.le
      have hlt : pd.total_portfolio_value * (15/100) / p < 1 :=
        (div_lt_one hppos).mpr hgt
      have hfl : ⌊pd.total_portfolio_value * (15/100) / p⌋ = 0 :=
        Int.floor_eq_zero_iff.mpr ⟨hnn, hlt⟩
      rw [hfl]
      exact max_eq_left (by norm_num)
    · rw [one_mul]
      exact hgt

/-- Witness for C10: portfolio value 1000, action BUY 10 units at price 100
(value 1000 > 150 = 15% cap): the quantity is rewritten to
`max(1, floor(150/100)) = 1` and the reason annotated. -/
theorem C10_position_cap_witness :
    enhanceListElem 1000 (.jobj
      [("quantity", .jnum 10), ("current_price", .jnum 100), ("reason", .jstr "r")])
      = some (.jobj (setKey (setKey
          [("quantity", .jnum 10), ("current_price", .jnum 100), ("reason", .jstr "r")]
          "quantity" (.jnum ((max 1 ⌊(1000 : ℚ) * (15/100) / 100⌋ : ℤ) : ℚ)))
          "reason" (.jstr ("r" ++ " (скорректировано под размер портфеля)")))) :=
  (C10_position_cap ⟨1000, 0, 1, "2025-01-01T00:00:00"⟩
    [("quantity", .jnum 10), ("current_price", .jnum 100), ("reason", .jstr "r")]
    10 100 "r" rfl rfl rfl (by norm_num) (by norm_num)).1

end TBankBot
